import Mathlib

/-!
Verification of the log-analysis reporting tool (`report.py`).

The development shallowly embeds the three SQL aggregation queries
(`POPULAR_ARTICLE_SQL`, `POPULAR_AUTHOR_SQL`, `ERROR_DAYS_SQL`), the report
driver `_run_report`, and the orchestrator `answer_questions`.

Modelling conventions:
* The database is a `Store`: lists of log rows, article rows and author rows.
* A calendar day (the value of `date_trunc('day', time)` and of
  `row['date'].date()`) is abstracted as a `Nat` day identifier; the claims
  under study never depend on the internal structure of a date.
* Python exceptions and SQL execution failures are values of `PyError`,
  carried in `Except`; raising propagates by the `Except` structure exactly as
  Python exceptions propagate out of `_run_report` and `answer_questions`.
* `print` output is collected as a `List String`, one element per line.
* SQL `NULL` produced by the outer join is modelled with `Option`; the SQL
  three-valued `WHERE` comparison on a `NULL` operand discards the row, which
  is compiled into the `filterMap` below.
* Python float formatting `'{:0.2f}'` is modelled by exact rational rounding
  to hundredths; this agrees with Python on every value whose mathematical
  result is not a floating-point tie (all values exercised here are exact).
-/

deriving instance DecidableEq for Except

namespace Report

/-- Exceptions that the embedded program can raise: Python's
`ZeroDivisionError`, PostgreSQL's error for a negative `LIMIT` argument, and
an arbitrary external failure (connectivity loss etc.). -/
inductive PyError where
  | zeroDivision
  | negativeLimit
  | external (msg : String)
  deriving DecidableEq

/-- One row of the `log` table: request path, response status and the
calendar day of the timestamp (abstraction of `date_trunc('day', time)`). -/
structure LogEntry where
  path : String
  status : String
  day : Nat
  deriving DecidableEq

/-- One row of the `articles` table. -/
structure Article where
  id : Nat
  slug : String
  title : String
  author : Nat
  deriving DecidableEq

/-- One row of the `authors` table. -/
structure Author where
  id : Nat
  name : String
  deriving DecidableEq

/-- The database the connection is bound to. -/
structure Store where
  log : List LogEntry
  articles : List Article
  authors : List Author
  deriving DecidableEq

/-- Result row of `POPULAR_ARTICLE_SQL`: `SELECT id, views, title`. -/
structure ItemRow where
  id : Nat
  views : Nat
  title : String
  deriving DecidableEq

/-- Result row of `POPULAR_AUTHOR_SQL`: `SELECT id, name, views`. -/
structure AuthorRow where
  id : Nat
  name : String
  views : Nat
  deriving DecidableEq

/-- Result row of `ERROR_DAYS_SQL`: `SELECT date, error_count, ok_count`.
Rows that survive the `WHERE` clause always carry non-`NULL` counts, so the
fields are plain `Nat`. -/
structure ErrorDayRow where
  date : Nat
  error_count : Nat
  ok_count : Nat
  deriving DecidableEq

/-- PostgreSQL `substring(s, start, count)`: the characters of `s` at
1-indexed positions `max(start,1) .. start+count-1`. -/
def substringSQL (s : String) (start count : Int) : String :=
  String.mk ((s.data.take (start + count - 1).toNat).drop (start - 1).toNat)

/-- The `WHERE substring(path, 0, 10) = '/article/'` filter shared by
`POPULAR_ARTICLE_SQL` and `POPULAR_AUTHOR_SQL`. -/
def pathFilter (p : String) : Bool :=
  decide (substringSQL p 0 10 = "/article/")

/-- The multiset of article-path hits: paths of log rows passing the
`substring` filter (the rows `GROUP BY path` ranges over). -/
def articleHits (log : List LogEntry) : List String :=
  (log.filter (fun e => pathFilter e.path)).map (fun e => e.path)

/-- The inner `article_views` subquery: one `(path, count(*))` pair per
distinct filtered path. -/
def pathViews (log : List LogEntry) : List (String × Nat) :=
  (articleHits log).dedup.map (fun p => (p, (articleHits log).count p))

/-- Insertion step of a descending insertion sort keyed by `key`. -/
def insertDescBy {α : Type} (key : α → Nat) (a : α) : List α → List α
  | [] => [a]
  | b :: bs => if key b < key a then a :: b :: bs else b :: insertDescBy key a bs

/-- `ORDER BY <key> DESC` (ties in store order are unspecified by SQL; this
embedding fixes one order). -/
def sortDescBy {α : Type} (key : α → Nat) : List α → List α
  | [] => []
  | a :: as => insertDescBy key a (sortDescBy key as)

/-- The articles matching a path under the join condition
`concat('/article/', articles.slug) = path`. -/
def matchingArticles (st : Store) (p : String) : List Article :=
  st.articles.filter (fun a => decide ("/article/" ++ a.slug = p))

/-- `POPULAR_ARTICLE_SQL`: top-3 filtered paths by view count, inner-joined
to `articles` on the derived path. -/
def popularArticleRows (st : Store) : List ItemRow :=
  ((sortDescBy (fun pv => pv.2) (pathViews st.log)).take 3).flatMap
    (fun pv => (matchingArticles st pv.1).map
      (fun a => { id := a.id, views := pv.2, title := a.title }))

/-- The joined `(author, views)` pairs of `POPULAR_AUTHOR_SQL`'s inner
subquery: per-path view counts inner-joined to `articles`. -/
def authorViewPairs (st : Store) : List (Nat × Nat) :=
  (pathViews st.log).flatMap
    (fun pv => (matchingArticles st pv.1).map (fun a => (a.author, pv.2)))

/-- `POPULAR_AUTHOR_SQL` before the `LIMIT`: sum joined view counts grouped
by author id, inner-join to `authors`, `ORDER BY views DESC`. -/
def popularAuthorRows (st : Store) : List AuthorRow :=
  let pairs := authorViewPairs st
  let sums := ((pairs.map (fun q => q.1)).dedup).map
    (fun aid => (aid, ((pairs.filter (fun q => decide (q.1 = aid))).map (fun q => q.2)).sum))
  sortDescBy (fun r => r.views)
    (sums.flatMap (fun sv => (st.authors.filter (fun au => decide (sv.1 = au.id))).map
      (fun au => { id := au.id, name := au.name, views := sv.2 })))

/-- `count(*)` of a day's `status = '200 OK'` log rows (the subquery aliased
`error_counts`, which actually computes `ok_count`). -/
def okCountOn (log : List LogEntry) (d : Nat) : Nat :=
  log.countP (fun e => decide (e.status = "200 OK" ∧ e.day = d))

/-- `count(*)` of a day's `status != '200 OK'` log rows (the subquery
aliased `ok_counts`, which actually computes `error_count`). -/
def errCountOn (log : List LogEntry) (d : Nat) : Nat :=
  log.countP (fun e => decide (¬e.status = "200 OK" ∧ e.day = d))

/-- The days of the left side of `ERROR_DAYS_SQL`'s join: distinct days
having at least one `'200 OK'` row, `ORDER BY date DESC`. -/
def okDaysDesc (log : List LogEntry) : List Nat :=
  sortDescBy (fun d => d)
    (((log.filter (fun e => decide (e.status = "200 OK"))).map (fun e => e.day)).dedup)

/-- `ERROR_DAYS_SQL` before the `LIMIT`.  The `LEFT OUTER JOIN` keeps every
day of the OK-count side; a day with no error rows gets `error_count = NULL`
(modelled by the zero-count branch), and the `WHERE` comparison on `NULL` is
unknown, discarding the row.  Days absent from the OK-count side never enter
the join at all. -/
def errorDaysRowsAll (st : Store) : List ErrorDayRow :=
  (okDaysDesc st.log).filterMap (fun d =>
    if errCountOn st.log d = 0 then none
    else if 100 * errCountOn st.log d > errCountOn st.log d + okCountOn st.log d then
      some { date := d, error_count := errCountOn st.log d, ok_count := okCountOn st.log d }
    else none)

/-- `LIMIT {:d}` applied at execution: PostgreSQL raises on a negative
argument, otherwise truncates the sorted rows. -/
def execLimit {ρ : Type} (rows : List ρ) (limit : Int) : Except PyError (List ρ) :=
  if limit < 0 then Except.error PyError.negativeLimit
  else Except.ok (rows.take limit.toNat)

/-- A connection as `answer_questions` sees it: each of the three queries
either returns its rows or raises.  `authors` and `errorDays` receive the
`limit` interpolated into their SQL text. -/
structure Conn where
  items : Except PyError (List ItemRow)
  authors : Int → Except PyError (List AuthorRow)
  errorDays : Int → Except PyError (List ErrorDayRow)

/-- The honest connection over a store: queries compute the SQL semantics
above and fail only on a negative `LIMIT`. -/
def storeConn (st : Store) : Conn where
  items := Except.ok (popularArticleRows st)
  authors := fun limit => execLimit (popularAuthorRows st) limit
  errorDays := fun limit => execLimit (errorDaysRowsAll st) limit

/-- `'{title} ({views} views)'.format` . -/
def itemLine (r : ItemRow) : String :=
  r.title ++ " (" ++ toString r.views ++ " views)"

/-- `'{name} ({views} views)'.format` . -/
def authorLine (r : AuthorRow) : String :=
  r.name ++ " (" ++ toString r.views ++ " views)"

/-- Item formatter as passed to `_run_report` (never raises). -/
def fmtItem (r : ItemRow) : Except PyError String :=
  Except.ok (itemLine r)

/-- Author formatter as passed to `_run_report` (never raises). -/
def fmtAuthor (r : AuthorRow) : Except PyError String :=
  Except.ok (authorLine r)

/-- Two-decimal rendering of the exact rational `num/den` (`den ≠ 0`),
rounding to the nearest hundredth: the model of `'{rate:0.2f}'`. -/
def formatFixed2 (num den : Nat) : String :=
  let h := (num * 100 * 2 + den) / (2 * den)
  toString (h / 100) ++ "." ++
    (if h % 100 < 10 then "0" ++ toString (h % 100) else toString (h % 100))

/-- `format_error_days`: `rate = 100. * error_count; rate /= error_count +
ok_count` raises `ZeroDivisionError` on a zero denominator — there is no
guard in the source — then renders `'{date} ({rate:0.2f}% error)'`. -/
def formatErrorDays (r : ErrorDayRow) : Except PyError String :=
  if r.error_count + r.ok_count = 0 then Except.error PyError.zeroDivision
  else Except.ok (toString r.date ++ " (" ++
    formatFixed2 (100 * r.error_count) (r.error_count + r.ok_count) ++ "% error)")

/-- The formatting loop of `_run_report`: format each row in order; the
first exception raised by a formatter aborts the loop and propagates. -/
def mapLines {ρ : Type} (fmt : ρ → Except PyError String) :
    List ρ → Except PyError (List String)
  | [] => Except.ok []
  | r :: rs =>
    match fmt r with
    | Except.error e => Except.error e
    | Except.ok s =>
      match mapLines fmt rs with
      | Except.error e => Except.error e
      | Except.ok ss => Except.ok (s :: ss)

/-- `_run_report`: execute the query; with at least one row print
`'  {}'.format(on_success(**row))` per row, else print
`'  {}'.format(failure_message)`.  Returns the printed lines or the first
exception raised. -/
def runReportLines {ρ : Type} (result : Except PyError (List ρ))
    (fmt : ρ → Except PyError String) (failureMessage : String) :
    Except PyError (List String) :=
  match result with
  | Except.error e => Except.error e
  | Except.ok rows =>
    if rows.length ≠ 0 then
      match mapLines fmt rows with
      | Except.error e => Except.error e
      | Except.ok ss => Except.ok (ss.map (fun s => "  " ++ s))
    else Except.ok ["  " ++ failureMessage]

/-- The pure shape of a successful `_run_report` section. -/
def reportLines {ρ : Type} (fmtLine : ρ → String) (failureMessage : String)
    (rows : List ρ) : List String :=
  if rows.length ≠ 0 then rows.map (fun r => "  " ++ fmtLine r)
  else ["  " ++ failureMessage]

/-- Fallback message passed for question 1 (note the two embedded leading
spaces in the source literal). -/
def itemsFallback : String := "  No popular articles to report."

/-- Fallback message passed for question 2 (no embedded leading spaces). -/
def authorsFallback : String := "No popular authors to report."

/-- Fallback message passed for question 3 (note the two embedded leading
spaces in the source literal). -/
def errorDaysFallback : String := "  No error days to report."

/-- `answer_questions`: the three sections in fixed order, each a header
line, the section's `_run_report` lines, and a trailing blank line.  The
returned pair is (lines printed before any exception, the exception if one
was raised). -/
def answerQuestions (conn : Conn) (limit : Int) : List String × Option PyError :=
  let out1 := ["The most popular three articles of all time:"]
  match runReportLines conn.items fmtItem itemsFallback with
  | Except.error e => (out1, some e)
  | Except.ok ls1 =>
    let out2 := out1 ++ ls1 ++ [""] ++ ["The most popular article authors of all time:"]
    match runReportLines (conn.authors limit) fmtAuthor authorsFallback with
    | Except.error e => (out2, some e)
    | Except.ok ls2 =>
      let out3 := out2 ++ ls2 ++ [""] ++ ["Days with more than 1% of requests leading to errors:"]
      match runReportLines (conn.errorDays limit) formatErrorDays errorDaysFallback with
      | Except.error e => (out3, some e)
      | Except.ok ls3 => (out3 ++ ls3 ++ [""], none)

/-- The empty data store. -/
def emptyStore : Store := { log := [], articles := [], authors := [] }

/-- A store whose single log entry is a non-`'200 OK'` request: its one day
has a 100% error rate. -/
def allErrStore : Store :=
  { log := [{ path := "/some/path", status := "404 NOT FOUND", day := 0 }]
    articles := [], authors := [] }

/-- A store with one day of 100 requests, exactly 1 of them an error. -/
def oneErrStore : Store :=
  { log := List.replicate 99 { path := "/x", status := "200 OK", day := 0 } ++
      [{ path := "/x", status := "404 NOT FOUND", day := 0 }]
    articles := [], authors := [] }

/-- A store with one day of 100 requests, exactly 2 of them errors. -/
def twoErrStore : Store :=
  { log := List.replicate 98 { path := "/x", status := "200 OK", day := 0 } ++
      [{ path := "/x", status := "404 NOT FOUND", day := 0 },
       { path := "/x", status := "500 ERROR", day := 0 }]
    articles := [], authors := [] }

/-- A store whose four articles share one slug: the single top path joins to
four article rows. -/
def dupSlugStore : Store :=
  { log := [{ path := "/article/foo", status := "200 OK", day := 0 }]
    articles :=
      [{ id := 1, slug := "foo", title := "A", author := 1 },
       { id := 2, slug := "foo", title := "B", author := 1 },
       { id := 3, slug := "foo", title := "C", author := 1 },
       { id := 4, slug := "foo", title := "D", author := 1 }]
    authors := [{ id := 1, name := "Ann" }] }

/-- A store with one day of one OK and one error request (50% error rate). -/
def halfErrStore : Store :=
  { log := [{ path := "/a", status := "200 OK", day := 0 },
            { path := "/a", status := "404 NOT FOUND", day := 0 }]
    articles := [], authors := [] }

/-- A connection whose Authors query raises an external error. -/
def boomConn : Conn where
  items := Except.ok []
  authors := fun _ => Except.error (PyError.external "boom")
  errorDays := fun _ => Except.ok []

/-! ## Engine lemmas -/

theorem mapLines_of_total {ρ : Type} (g : ρ → String) (rs : List ρ) :
    mapLines (fun r => Except.ok (g r)) rs = Except.ok (rs.map g) := by
  induction rs with
  | nil => rfl
  | cons a l ih => simp [mapLines, ih]

theorem runReport_ok {ρ : Type} (g : ρ → String) (msg : String) (rows : List ρ) :
    runReportLines (Except.ok rows) (fun r => Except.ok (g r)) msg =
      Except.ok (reportLines g msg rows) := by
  simp only [runReportLines, reportLines, mapLines_of_total]
  by_cases h : rows.length ≠ 0
  · simp [h, List.map_map, Function.comp]
  · simp [h]

theorem runReport_fmtItem_ok (msg : String) (rows : List ItemRow) :
    runReportLines (Except.ok rows) fmtItem msg =
      Except.ok (reportLines itemLine msg rows) :=
  runReport_ok itemLine msg rows

theorem runReport_fmtAuthor_ok (msg : String) (rows : List AuthorRow) :
    runReportLines (Except.ok rows) fmtAuthor msg =
      Except.ok (reportLines authorLine msg rows) :=
  runReport_ok authorLine msg rows

theorem errorDays_ec_pos (st : Store) (r : ErrorDayRow)
    (h : r ∈ errorDaysRowsAll st) : 0 < r.error_count := by
  rcases List.mem_filterMap.mp h with ⟨d, _, hd⟩
  split_ifs at hd with h1 h2
  rw [← Option.some.inj hd]
  exact Nat.pos_of_ne_zero h1

theorem formatErrorDays_ok_of_pos (r : ErrorDayRow) (h : 0 < r.error_count) :
    ∃ s, formatErrorDays r = Except.ok s := by
  rw [formatErrorDays, if_neg (by omega)]
  exact ⟨_, rfl⟩

theorem mapLines_formatErrorDays_ok (rs : List ErrorDayRow)
    (h : ∀ r ∈ rs, 0 < r.error_count) :
    ∃ ss, mapLines formatErrorDays rs = Except.ok ss := by
  induction rs with
  | nil => exact ⟨[], rfl⟩
  | cons a l ih =>
    rcases formatErrorDays_ok_of_pos a (h a (by simp)) with ⟨s, hs⟩
    rcases ih (fun r hr => h r (by simp [hr])) with ⟨ss, hss⟩
    exact ⟨s :: ss, by rw [mapLines, hs, hss]⟩

theorem runReport_errorDays_ok (st : Store) (n : Nat) :
    ∃ ls, runReportLines (Except.ok ((errorDaysRowsAll st).take n))
      formatErrorDays errorDaysFallback = Except.ok ls := by
  rcases mapLines_formatErrorDays_ok ((errorDaysRowsAll st).take n)
      (fun r hr => errorDays_ec_pos st r (List.mem_of_mem_take hr)) with ⟨ss, hss⟩
  by_cases h : ((errorDaysRowsAll st).take n).length ≠ 0
  · exact ⟨_, by rw [runReportLines, if_pos h, hss]⟩
  · exact ⟨_, by rw [runReportLines, if_neg h]⟩

theorem pathFilter_iff (p : String) :
    pathFilter p = true ↔ "/article/".data <+: p.data := by
  have h1 : substringSQL p 0 10 = String.mk (p.data.take 9) := by
    simp [substringSQL]
  constructor
  · intro h
    have h2 : substringSQL p 0 10 = "/article/" := by
      simpa [pathFilter] using h
    rw [h1] at h2
    have h3 : p.data.take 9 = "/article/".data := congrArg String.data h2
    rw [List.prefix_iff_eq_take]
    simpa using h3.symm
  · intro h
    have h3 : "/article/".data = p.data.take 9 := by
      have := List.prefix_iff_eq_take.mp h
      simpa using this
    have h2 : substringSQL p 0 10 = "/article/" := by
      rw [h1]
      exact String.ext h3.symm
    simp [pathFilter, h2]

/-! ## Query lemmas -/


theorem articleHits_cons_neg (e : LogEntry) (log : List LogEntry)
    (h : pathFilter e.path = false) : articleHits (e :: log) = articleHits log := by
  simp [articleHits, List.filter_cons, h]

theorem pathViews_cons_neg (e : LogEntry) (log : List LogEntry)
    (h : pathFilter e.path = false) : pathViews (e :: log) = pathViews log := by
  simp [pathViews, articleHits_cons_neg e log h]

theorem matchingArticles_log_update (st : Store) (l : List LogEntry) (p : String) :
    matchingArticles { st with log := l } p = matchingArticles st p := rfl

theorem popularArticleRows_cons_neg (st : Store) (e : LogEntry)
    (h : pathFilter e.path = false) :
    popularArticleRows { st with log := e :: st.log } = popularArticleRows st := by
  simp only [popularArticleRows, matchingArticles_log_update]
  rw [pathViews_cons_neg e st.log h]

theorem authorViewPairs_cons_neg (st : Store) (e : LogEntry)
    (h : pathFilter e.path = false) :
    authorViewPairs { st with log := e :: st.log } = authorViewPairs st := by
  simp only [authorViewPairs, matchingArticles_log_update]
  rw [pathViews_cons_neg e st.log h]

theorem popularAuthorRows_cons_neg (st : Store) (e : LogEntry)
    (h : pathFilter e.path = false) :
    popularAuthorRows { st with log := e :: st.log } = popularAuthorRows st := by
  simp only [popularAuthorRows]
  rw [authorViewPairs_cons_neg st e h]

theorem articleHits_eq_nil (log : List LogEntry)
    (h : ∀ e ∈ log, pathFilter e.path = false) : articleHits log = [] := by
  simp only [articleHits, List.map_eq_nil_iff, List.filter_eq_nil_iff]
  exact fun e he => by simp [h e he]

theorem popularArticleRows_eq_nil (st : Store)
    (h : ∀ e ∈ st.log, pathFilter e.path = false) : popularArticleRows st = [] := by
  simp [popularArticleRows, pathViews, articleHits_eq_nil st.log h, sortDescBy]

theorem popularAuthorRows_eq_nil (st : Store)
    (h : ∀ e ∈ st.log, pathFilter e.path = false) : popularAuthorRows st = [] := by
  simp [popularAuthorRows, authorViewPairs, pathViews, articleHits_eq_nil st.log h, sortDescBy]

theorem flatMap_length_le {α β : Type} (f : α → List β) (l : List α)
    (h : ∀ a ∈ l, (f a).length ≤ 1) : (l.flatMap f).length ≤ l.length := by
  induction l with
  | nil => simp
  | cons a l ih =>
    have h1 := h a (by simp)
    have h2 := ih (fun b hb => h b (by simp [hb]))
    simp only [List.flatMap_cons, List.length_append, List.length_cons]
    omega

theorem append_left_inj {s₁ s₂ : String} (pre : String)
    (h : pre ++ s₁ = pre ++ s₂) : s₁ = s₂ := by
  apply String.ext
  have h2 := congrArg String.data h
  rw [String.data_append, String.data_append] at h2
  exact List.append_cancel_left h2

theorem filter_slug_le_one (arts : List Article) (p : String)
    (hnd : (arts.map (fun a => a.slug)).Nodup) :
    (arts.filter (fun a => decide ("/article/" ++ a.slug = p))).length ≤ 1 := by
  induction arts with
  | nil => simp
  | cons a l ih =>
    rw [List.map_cons, List.nodup_cons] at hnd
    rw [List.filter_cons]
    by_cases hq : "/article/" ++ a.slug = p
    · have hnil : l.filter (fun b => decide ("/article/" ++ b.slug = p)) = [] := by
        rw [List.filter_eq_nil_iff]
        intro b hb
        simp only [decide_eq_true_eq]
        intro hbp
        exact hnd.1 (List.mem_map.mpr ⟨b, hb,
          (append_left_inj "/article/" (hbp.trans hq.symm)).symm ▸ rfl⟩)
      simp [hq, hnil]
    · simpa [hq] using ih hnd.2

theorem matching_le_one (st : Store) (p : String)
    (hnd : (st.articles.map (fun a => a.slug)).Nodup) :
    (matchingArticles st p).length ≤ 1 :=
  filter_slug_le_one st.articles p hnd

theorem popularArticleRows_le_three (st : Store)
    (hnd : (st.articles.map (fun a => a.slug)).Nodup) :
    (popularArticleRows st).length ≤ 3 := by
  unfold popularArticleRows
  have h1 : ∀ pv ∈ (sortDescBy (fun pv => pv.2) (pathViews st.log)).take 3,
      ((matchingArticles st pv.1).map
        (fun a => ({ id := a.id, views := pv.2, title := a.title } : ItemRow))).length ≤ 1 := by
    intro pv _
    simpa using matching_le_one st pv.1 hnd
  have h2 := flatMap_length_le _ _ h1
  have h3 : ((sortDescBy (fun pv => pv.2) (pathViews st.log)).take 3).length ≤ 3 := by
    rw [List.length_take]
    exact min_le_left _ _
  exact h2.trans h3

/-! ## Claim theorems -/


theorem mapLines_mem {ρ : Type} (fmt : ρ → Except PyError String) :
    ∀ (rows : List ρ) (ss : List String), mapLines fmt rows = Except.ok ss →
      ∀ s ∈ ss, ∃ r ∈ rows, fmt r = Except.ok s := by
  intro rows
  induction rows with
  | nil =>
    intro ss h s hs
    rw [mapLines] at h
    rw [← Except.ok.inj h] at hs
    cases hs
  | cons a l ih =>
    intro ss h s hs
    rw [mapLines] at h
    cases hfa : fmt a with
    | error e => rw [hfa] at h; cases h
    | ok s0 =>
      rw [hfa] at h
      cases hml : mapLines fmt l with
      | error e => rw [hml] at h; cases h
      | ok ss0 =>
        rw [hml] at h
        rw [← Except.ok.inj h] at hs
        rcases List.mem_cons.mp hs with rfl | hmem
        · exact ⟨a, by simp, hfa⟩
        · rcases ih ss0 hml s hmem with ⟨r, hr, hfr⟩
          exact ⟨r, by simp [hr], hfr⟩

theorem storeConn_errorDays_mem (st : Store) (limit : Int) (r : ErrorDayRow)
    (rs : List ErrorDayRow) (h1 : (storeConn st).errorDays limit = Except.ok rs)
    (h2 : r ∈ rs) : r ∈ errorDaysRowsAll st := by
  by_cases h : limit < 0
  · rw [show (storeConn st).errorDays limit = execLimit (errorDaysRowsAll st) limit from rfl,
      execLimit, if_pos h] at h1
    cases h1
  · rw [show (storeConn st).errorDays limit = execLimit (errorDaysRowsAll st) limit from rfl,
      execLimit, if_neg h] at h1
    exact List.mem_of_mem_take (Except.ok.inj h1 ▸ h2)

/-- C1 (code bug): the day of `allErrStore`, all of whose entries are
non-`"200 OK"` (error rate 100%), is absent from the Error-Days result even
though it has one error entry and zero OK entries: the `LEFT OUTER JOIN`
keeps only days with at least one `"200 OK"` entry. -/
theorem error_days_drops_full_error_day :
    errorDaysRowsAll allErrStore = []
  ∧ errCountOn allErrStore.log 0 = 1
  ∧ okCountOn allErrStore.log 0 = 0 := by decide

set_option maxRecDepth 40000 in
/-- C3: a day with 100 entries of which exactly 1 is an error (rate exactly
1%) is excluded; a day with 2 errors out of 100 is included and its rate is
rendered `"2.00"`. -/
theorem error_rate_boundary :
    errorDaysRowsAll oneErrStore = []
  ∧ errCountOn oneErrStore.log 0 = 1 ∧ okCountOn oneErrStore.log 0 = 99
  ∧ errorDaysRowsAll twoErrStore = [{ date := 0, error_count := 2, ok_count := 98 }]
  ∧ formatErrorDays { date := 0, error_count := 2, ok_count := 98 } =
      Except.ok "0 (2.00% error)"
  ∧ runReportLines ((storeConn twoErrStore).errorDays 10) formatErrorDays
      errorDaysFallback = Except.ok ["  0 (2.00% error)"] := by decide

/-- C5 counterexample: a store whose articles share a slug makes the Items
query return more than 3 rows (the top path joins to four articles). -/
theorem items_exceed_three_with_dup_slugs :
    ¬(popularArticleRows dupSlugStore).length ≤ 3 := by decide

/-- C6 counterexample: the error-day formatter has no zero-denominator
guard; on a row with both counts zero it raises `ZeroDivisionError` instead
of treating the counts as zero. -/
theorem formatErrorDays_unguarded :
    formatErrorDays { date := 0, error_count := 0, ok_count := 0 } =
      Except.error PyError.zeroDivision := by decide

/-- C4: the `substring(path, 0, 10)` test compares exactly the first 9
characters, so it holds iff the path has the literal prefix `/article/`; an
article matches a path iff the path equals `"/article/" ++ slug`; and a log
entry whose path lacks the prefix contributes to no count in the Items or
Authors queries. -/
theorem article_prefix_semantics (st : Store) (e : LogEntry) (p : String)
    (a : Article) (he : pathFilter e.path = false) :
    (pathFilter p = true ↔ "/article/".data <+: p.data)
  ∧ (a ∈ matchingArticles st p ↔ a ∈ st.articles ∧ "/article/" ++ a.slug = p)
  ∧ popularArticleRows { st with log := e :: st.log } = popularArticleRows st
  ∧ popularAuthorRows { st with log := e :: st.log } = popularAuthorRows st
  ∧ articleHits (e :: st.log) = articleHits st.log :=
  ⟨pathFilter_iff p,
   by simp [matchingArticles, List.mem_filter],
   popularArticleRows_cons_neg st e he,
   popularAuthorRows_cons_neg st e he,
   articleHits_cons_neg e st.log he⟩

/-- C5 (amended): for every store and nonnegative limit the Authors and
Error-Days queries return at most `limit` rows (limit 0 returns zero rows
and yields the fallback line, not an error); when the store's slugs are
pairwise distinct the Items query returns at most 3 rows. -/
theorem report_row_limits (st : Store) (limit : Int) (hl : 0 ≤ limit) :
    (storeConn st).authors limit = Except.ok ((popularAuthorRows st).take limit.toNat)
  ∧ ((popularAuthorRows st).take limit.toNat).length ≤ limit.toNat
  ∧ (storeConn st).errorDays limit = Except.ok ((errorDaysRowsAll st).take limit.toNat)
  ∧ ((errorDaysRowsAll st).take limit.toNat).length ≤ limit.toNat
  ∧ ((st.articles.map (fun a => a.slug)).Nodup → (popularArticleRows st).length ≤ 3)
  ∧ (storeConn st).authors 0 = Except.ok []
  ∧ runReportLines ((storeConn st).authors 0) fmtAuthor authorsFallback =
      Except.ok ["  " ++ authorsFallback] := by
  have hnl : ¬limit < 0 := by omega
  refine ⟨by simp [storeConn, execLimit, hnl], ?_, by simp [storeConn, execLimit, hnl], ?_,
    fun hnd => popularArticleRows_le_three st hnd, ?_, ?_⟩
  · rw [List.length_take]; exact min_le_left _ _
  · rw [List.length_take]; exact min_le_left _ _
  · simp [storeConn, execLimit]
  · have h0 : (storeConn st).authors 0 = Except.ok [] := by simp [storeConn, execLimit]
    rw [h0, runReport_fmtAuthor_ok]
    rfl

/-- C6 (amended): every row the Error-Days query returns has a positive
error count, so the denominator is nonzero and formatting it succeeds (the
formatter itself is unguarded, see the counterexample). -/
theorem errorDays_denominator_nonzero (st : Store) (limit : Int)
    (r : ErrorDayRow) (rs : List ErrorDayRow)
    (h1 : (storeConn st).errorDays limit = Except.ok rs) (h2 : r ∈ rs) :
    r.error_count + r.ok_count ≠ 0 ∧ ∃ s, formatErrorDays r = Except.ok s := by
  have hp := errorDays_ec_pos st r (storeConn_errorDays_mem st limit r rs h1 h2)
  exact ⟨by omega, formatErrorDays_ok_of_pos r hp⟩

/-- C7: a query-execution error passes through `_run_report` unmodified, and
an error in the Authors query aborts `answer_questions` right after the
Authors header: no Authors data or fallback line and no Error-Days section
lines are produced. -/
theorem query_error_propagation (conn : Conn) (limit : Int) (e : PyError)
    (rs1 : List ItemRow) (h1 : conn.items = Except.ok rs1)
    (h2 : conn.authors limit = Except.error e) :
    (∀ (fmt : AuthorRow → Except PyError String) (msg : String),
        runReportLines (Except.error e) fmt msg = Except.error e)
  ∧ answerQuestions conn limit =
      ("The most popular three articles of all time:" ::
        (reportLines itemLine itemsFallback rs1 ++
          ["", "The most popular article authors of all time:"]), some e) := by
  constructor
  · intro fmt msg; rfl
  · have hi : runReportLines conn.items fmtItem itemsFallback =
        Except.ok (reportLines itemLine itemsFallback rs1) := by
      rw [h1, runReport_fmtItem_ok]
    have ha : runReportLines (conn.authors limit) fmtAuthor authorsFallback =
        Except.error e := by rw [h2]; rfl
    simp [answerQuestions, hi, ha]

/-- C8: every data line is the two-space string `"  "` prepended to the
formatter's output and the fallback line is `"  "` prepended to the message;
the Items and Error-Days fallback messages carry two further leading spaces
of their own, so those lines start with four spaces. -/
theorem two_space_indentation (rows : List ItemRow)
    (fmt : ItemRow → Except PyError String) (msg : String) (ls : List String)
    (h : runReportLines (Except.ok rows) fmt msg = Except.ok ls) :
    (∀ l ∈ ls, (∃ r s, r ∈ rows ∧ fmt r = Except.ok s ∧ l = "  " ++ s)
      ∨ (rows = [] ∧ l = "  " ++ msg))
  ∧ "  " ++ itemsFallback = "    No popular articles to report."
  ∧ "  " ++ errorDaysFallback = "    No error days to report."
  ∧ "  " ++ authorsFallback = "  No popular authors to report." := by
  refine ⟨?_, rfl, rfl, rfl⟩
  by_cases hr : rows.length ≠ 0
  · rw [runReportLines, if_pos hr] at h
    cases hml : mapLines fmt rows with
    | error er => rw [hml] at h; cases h
    | ok ss =>
      rw [hml] at h
      intro l hl
      rw [← Except.ok.inj h] at hl
      rcases List.mem_map.mp hl with ⟨s, hs, rfl⟩
      rcases mapLines_mem fmt rows ss hml s hs with ⟨r, hrr, hfr⟩
      exact Or.inl ⟨r, s, hrr, hfr, rfl⟩
  · rw [runReportLines, if_neg hr] at h
    intro l hl
    rw [← Except.ok.inj h] at hl
    rcases List.mem_singleton.mp hl with rfl
    exact Or.inr ⟨by simpa using hr, rfl⟩

/-- C9: when the Error-Days query returns zero rows the engine emits, in
place of data lines, exactly one line, which contains the message
`"No error days to report."`. -/
theorem errorDays_fallback_line (conn : Conn) (limit : Int)
    (rs1 : List ItemRow) (rs2 : List AuthorRow)
    (h1 : conn.items = Except.ok rs1) (h2 : conn.authors limit = Except.ok rs2)
    (h3 : conn.errorDays limit = Except.ok []) :
    runReportLines (conn.errorDays limit) formatErrorDays errorDaysFallback =
      Except.ok ["    No error days to report."]
  ∧ answerQuestions conn limit =
      ("The most popular three articles of all time:" ::
        (reportLines itemLine itemsFallback rs1 ++
          ("" :: "The most popular article authors of all time:" ::
            (reportLines authorLine authorsFallback rs2 ++
              ["", "Days with more than 1% of requests leading to errors:",
               "    No error days to report.", ""]))), none)
  ∧ "No error days to report.".data <:+ "    No error days to report.".data := by
  have he : runReportLines (conn.errorDays limit) formatErrorDays errorDaysFallback =
      Except.ok ["    No error days to report."] := by rw [h3]; rfl
  refine ⟨he, ?_, ⟨"    ".data, by decide⟩⟩
  have hi : runReportLines conn.items fmtItem itemsFallback =
      Except.ok (reportLines itemLine itemsFallback rs1) := by
    rw [h1, runReport_fmtItem_ok]
  have ha : runReportLines (conn.authors limit) fmtAuthor authorsFallback =
      Except.ok (reportLines authorLine authorsFallback rs2) := by
    rw [h2, runReport_fmtAuthor_ok]
  simp [answerQuestions, hi, ha, he]

/-- C10: a negative limit reaches the Authors query unvalidated and
unclamped; executing it raises the negative-`LIMIT` error, so the run stops
right after the Authors header: the Items section is complete and no Authors
or Error-Days data or fallback lines are emitted. -/
theorem negative_limit_aborts (st : Store) (limit : Int) (h : limit < 0) :
    (storeConn st).authors limit = Except.error PyError.negativeLimit
  ∧ answerQuestions (storeConn st) limit =
      ("The most popular three articles of all time:" ::
        (reportLines itemLine itemsFallback (popularArticleRows st) ++
          ["", "The most popular article authors of all time:"]),
       some PyError.negativeLimit) := by
  have ha : (storeConn st).authors limit = Except.error PyError.negativeLimit := by
    simp [storeConn, execLimit, h]
  refine ⟨ha, ?_⟩
  have hi : runReportLines (storeConn st).items fmtItem itemsFallback =
      Except.ok (reportLines itemLine itemsFallback (popularArticleRows st)) :=
    runReport_fmtItem_ok _ _
  have ha2 : runReportLines ((storeConn st).authors limit) fmtAuthor authorsFallback =
      Except.error PyError.negativeLimit := by rw [ha]; rfl
  simp [answerQuestions, hi, ha2]

/-- C2: with no article-prefixed log entries, the Items and Authors sections
each consist of their header, exactly one fallback line, and a blank line;
in general a zero-row result produces exactly the single indented fallback
line. -/
theorem fallback_lines_on_prefix_free_store (st : Store) (limit : Int)
    (hp : ∀ e ∈ st.log, pathFilter e.path = false) (hl : 0 ≤ limit) :
    (∃ rest, (answerQuestions (storeConn st) limit).1 =
      ["The most popular three articles of all time:",
       "    No popular articles to report.", "",
       "The most popular article authors of all time:",
       "  No popular authors to report.", ""] ++ rest)
  ∧ (∀ (ρ : Type) (fmt : ρ → Except PyError String) (msg : String),
      runReportLines (Except.ok ([] : List ρ)) fmt msg = Except.ok ["  " ++ msg]) := by
  have hnl : ¬limit < 0 := by omega
  have hA : popularArticleRows st = [] := popularArticleRows_eq_nil st hp
  have hB : popularAuthorRows st = [] := popularAuthorRows_eq_nil st hp
  have hi : runReportLines (storeConn st).items fmtItem itemsFallback =
      Except.ok ["    No popular articles to report."] := by
    rw [show (storeConn st).items = Except.ok (popularArticleRows st) from rfl, hA,
      runReport_fmtItem_ok]
    rfl
  have hau : (storeConn st).authors limit = Except.ok [] := by
    rw [show (storeConn st).authors limit = execLimit (popularAuthorRows st) limit from rfl, hB]
    simp [execLimit, hnl]
  have ha2 : runReportLines ((storeConn st).authors limit) fmtAuthor authorsFallback =
      Except.ok ["  No popular authors to report."] := by
    rw [hau, runReport_fmtAuthor_ok]
    rfl
  have hed : (storeConn st).errorDays limit =
      Except.ok ((errorDaysRowsAll st).take limit.toNat) := by
    simp [storeConn, execLimit, hnl]
  rcases runReport_errorDays_ok st limit.toNat with ⟨ls3, hls3⟩
  have he2 : runReportLines ((storeConn st).errorDays limit) formatErrorDays
      errorDaysFallback = Except.ok ls3 := by rw [hed]; exact hls3
  constructor
  · refine ⟨"Days with more than 1% of requests leading to errors:" :: (ls3 ++ [""]), ?_⟩
    simp [answerQuestions, hi, ha2, he2]
  · intro ρ fmt msg; rfl

/-- Witness for C2 at the empty store with limit 0. -/
theorem fallback_lines_witness :
    (∀ e ∈ emptyStore.log, pathFilter e.path = false) ∧ (0 : Int) ≤ 0 ∧
    ((∃ rest, (answerQuestions (storeConn emptyStore) 0).1 =
      ["The most popular three articles of all time:",
       "    No popular articles to report.", "",
       "The most popular article authors of all time:",
       "  No popular authors to report.", ""] ++ rest)
  ∧ (∀ (ρ : Type) (fmt : ρ → Except PyError String) (msg : String),
      runReportLines (Except.ok ([] : List ρ)) fmt msg = Except.ok ["  " ++ msg])) :=
  ⟨by decide, by decide,
    fallback_lines_on_prefix_free_store emptyStore 0 (by decide) (by decide)⟩

/-- Witness for C4 at a concrete store, entry, path and article. -/
theorem article_prefix_semantics_witness :
    pathFilter "/x" = false ∧
    ((pathFilter "/article/foo" = true ↔ "/article/".data <+: "/article/foo".data)
  ∧ (({ id := 1, slug := "foo", title := "A", author := 1 } : Article) ∈
        matchingArticles dupSlugStore "/article/foo" ↔
      ({ id := 1, slug := "foo", title := "A", author := 1 } : Article) ∈
        dupSlugStore.articles ∧ "/article/" ++ "foo" = "/article/foo")
  ∧ popularArticleRows
      { dupSlugStore with
        log := { path := "/x", status := "200 OK", day := 0 } :: dupSlugStore.log } =
      popularArticleRows dupSlugStore
  ∧ popularAuthorRows
      { dupSlugStore with
        log := { path := "/x", status := "200 OK", day := 0 } :: dupSlugStore.log } =
      popularAuthorRows dupSlugStore
  ∧ articleHits ({ path := "/x", status := "200 OK", day := 0 } :: dupSlugStore.log) =
      articleHits dupSlugStore.log) :=
  ⟨by decide, article_prefix_semantics dupSlugStore
    { path := "/x", status := "200 OK", day := 0 } "/article/foo"
    { id := 1, slug := "foo", title := "A", author := 1 } (by decide)⟩

/-- Witness for C5 (amended) at the empty store with limit 0. -/
theorem report_row_limits_witness :
    (0 : Int) ≤ 0 ∧
    ((storeConn emptyStore).authors 0 =
        Except.ok ((popularAuthorRows emptyStore).take (0 : Int).toNat)
  ∧ ((popularAuthorRows emptyStore).take (0 : Int).toNat).length ≤ (0 : Int).toNat
  ∧ (storeConn emptyStore).errorDays 0 =
        Except.ok ((errorDaysRowsAll emptyStore).take (0 : Int).toNat)
  ∧ ((errorDaysRowsAll emptyStore).take (0 : Int).toNat).length ≤ (0 : Int).toNat
  ∧ ((emptyStore.articles.map (fun a => a.slug)).Nodup →
      (popularArticleRows emptyStore).length ≤ 3)
  ∧ (storeConn emptyStore).authors 0 = Except.ok []
  ∧ runReportLines ((storeConn emptyStore).authors 0) fmtAuthor authorsFallback =
      Except.ok ["  " ++ authorsFallback]) :=
  ⟨by decide, report_row_limits emptyStore 0 (by decide)⟩

/-- Witness for C6 (amended) at a store with one 50%-error day. -/
theorem errorDays_denominator_nonzero_witness :
    (storeConn halfErrStore).errorDays 5 =
      Except.ok [{ date := 0, error_count := 1, ok_count := 1 }] ∧
    ({ date := 0, error_count := 1, ok_count := 1 } : ErrorDayRow) ∈
      [({ date := 0, error_count := 1, ok_count := 1 } : ErrorDayRow)] ∧
    ((1 : Nat) + 1 ≠ 0 ∧
      ∃ s, formatErrorDays { date := 0, error_count := 1, ok_count := 1 } = Except.ok s) :=
  ⟨by decide, by decide, errorDays_denominator_nonzero halfErrStore 5
    { date := 0, error_count := 1, ok_count := 1 }
    [{ date := 0, error_count := 1, ok_count := 1 }] (by decide) (by decide)⟩

/-- Witness for C7 at a connection whose Authors query raises. -/
theorem query_error_propagation_witness :
    boomConn.items = Except.ok [] ∧
    boomConn.authors 5 = Except.error (PyError.external "boom") ∧
    ((∀ (fmt : AuthorRow → Except PyError String) (msg : String),
        runReportLines (Except.error (PyError.external "boom")) fmt msg =
          Except.error (PyError.external "boom"))
  ∧ answerQuestions boomConn 5 =
      ("The most popular three articles of all time:" ::
        (reportLines itemLine itemsFallback [] ++
          ["", "The most popular article authors of all time:"]),
       some (PyError.external "boom"))) :=
  ⟨rfl, rfl, query_error_propagation boomConn 5 (PyError.external "boom") [] rfl rfl⟩

/-- Witness for C8 at a one-row Items result. -/
theorem two_space_indentation_witness :
    runReportLines (Except.ok [({ id := 1, views := 5, title := "Foo" } : ItemRow)])
      fmtItem itemsFallback = Except.ok ["  Foo (5 views)"] ∧
    ((∀ l ∈ ["  Foo (5 views)"],
        (∃ r s, r ∈ [({ id := 1, views := 5, title := "Foo" } : ItemRow)] ∧
          fmtItem r = Except.ok s ∧ l = "  " ++ s)
      ∨ ([({ id := 1, views := 5, title := "Foo" } : ItemRow)] = [] ∧
          l = "  " ++ itemsFallback))
  ∧ "  " ++ itemsFallback = "    No popular articles to report."
  ∧ "  " ++ errorDaysFallback = "    No error days to report."
  ∧ "  " ++ authorsFallback = "  No popular authors to report.") :=
  ⟨by decide, two_space_indentation [{ id := 1, views := 5, title := "Foo" }]
    fmtItem itemsFallback ["  Foo (5 views)"] (by decide)⟩

/-- Witness for C9 at the empty store with limit 0. -/
theorem errorDays_fallback_line_witness :
    (storeConn emptyStore).items = Except.ok [] ∧
    (storeConn emptyStore).authors 0 = Except.ok [] ∧
    (storeConn emptyStore).errorDays 0 = Except.ok [] ∧
    (runReportLines ((storeConn emptyStore).errorDays 0) formatErrorDays
        errorDaysFallback = Except.ok ["    No error days to report."]
  ∧ answerQuestions (storeConn emptyStore) 0 =
      ("The most popular three articles of all time:" ::
        (reportLines itemLine itemsFallback [] ++
          ("" :: "The most popular article authors of all time:" ::
            (reportLines authorLine authorsFallback [] ++
              ["", "Days with more than 1% of requests leading to errors:",
               "    No error days to report.", ""]))), none)
  ∧ "No error days to report.".data <:+ "    No error days to report.".data) :=
  ⟨by decide, by decide, by decide,
    errorDays_fallback_line (storeConn emptyStore) 0 [] [] (by decide) (by decide) (by decide)⟩

/-- Witness for C10 at the empty store with limit -1. -/
theorem negative_limit_aborts_witness :
    (-1 : Int) < 0 ∧
    ((storeConn emptyStore).authors (-1) = Except.error PyError.negativeLimit
  ∧ answerQuestions (storeConn emptyStore) (-1) =
      ("The most popular three articles of all time:" ::
        (reportLines itemLine itemsFallback (popularArticleRows emptyStore) ++
          ["", "The most popular article authors of all time:"]),
       some PyError.negativeLimit)) :=
  ⟨by decide, negative_limit_aborts emptyStore (-1) (by decide)⟩

end Report
